import Mathlib

/-!
Shallow embedding of `src/simulation/main.cpp` (an SDL bouncing-spheres toy).
Doubles are modelled as real numbers; the SDL windowing, event and drawing
glue is out of scope.  The physics core embedded here:
  * the `Vector2` value type and its operators,
  * the `Sphere` record,
  * `handleSphereCollision` (lines 62-98),
  * the per-sphere update in the main loop (lines 146-185):
    gravity integration, boundary resolution against the window edges,
    and the inner collision loop over all other spheres,
  * sphere spawning on mouse click (lines 135-143).
-/

namespace Simulation

def SCREEN_WIDTH : ℝ := 640

def SCREEN_HEIGHT : ℝ := 480

def SPHERE_RADIUS : ℝ := 20

def GRAVITY : ℝ := 0.2

def BOUNCE_FACTOR : ℝ := 0.8

/-- Two-dimensional vector with real components, embedding the C++ `Vector2`
class. -/
structure Vector2 where
  x : ℝ
  y : ℝ

instance : Add Vector2 := ⟨fun a b => ⟨a.x + b.x, a.y + b.y⟩⟩

instance : Sub Vector2 := ⟨fun a b => ⟨a.x - b.x, a.y - b.y⟩⟩

instance : HMul Vector2 ℝ Vector2 := ⟨fun v c => ⟨v.x * c, v.y * c⟩⟩

@[simp] theorem Vector2.add_x (a b : Vector2) : (a + b).x = a.x + b.x := rfl

@[simp] theorem Vector2.add_y (a b : Vector2) : (a + b).y = a.y + b.y := rfl

@[simp] theorem Vector2.sub_x (a b : Vector2) : (a - b).x = a.x - b.x := rfl

@[simp] theorem Vector2.sub_y (a b : Vector2) : (a - b).y = a.y - b.y := rfl

@[simp] theorem Vector2.smul_x (a : Vector2) (c : ℝ) : (a * c).x = a.x * c := rfl

@[simp] theorem Vector2.smul_y (a : Vector2) (c : ℝ) : (a * c).y = a.y * c := rfl

@[simp] theorem Vector2.add_mk (x₁ y₁ x₂ y₂ : ℝ) :
    (⟨x₁, y₁⟩ + ⟨x₂, y₂⟩ : Vector2) = ⟨x₁ + x₂, y₁ + y₂⟩ := rfl

@[simp] theorem Vector2.sub_mk (x₁ y₁ x₂ y₂ : ℝ) :
    (⟨x₁, y₁⟩ - ⟨x₂, y₂⟩ : Vector2) = ⟨x₁ - x₂, y₁ - y₂⟩ := rfl

@[simp] theorem Vector2.smul_mk (x₁ y₁ c : ℝ) :
    ((⟨x₁, y₁⟩ : Vector2) * c) = (⟨x₁ * c, y₁ * c⟩ : Vector2) := rfl

@[ext] theorem Vector2.ext {a b : Vector2} (hx : a.x = b.x) (hy : a.y = b.y) : a = b := by
  cases a; cases b; simp_all

/-- The C++ `Sphere` struct: position, velocity, color and a per-sphere
`bounceFactor` field.  The struct carries no radius; every use of a radius in
the source goes through the global `SPHERE_RADIUS` constant. -/
structure Sphere where
  position : Vector2
  velocity : Vector2
  color : ℕ
  bounceFactor : ℝ

instance : Inhabited Vector2 := ⟨⟨0, 0⟩⟩

instance : Inhabited Sphere := ⟨⟨⟨0, 0⟩, ⟨0, 0⟩, 0, 0⟩⟩

/-- `relativePosition` local of `handleSphereCollision` (line 64). -/
def relativePosition (sphere1 sphere2 : Sphere) : Vector2 :=
  sphere2.position - sphere1.position

/-- `distance` local of `handleSphereCollision` (line 65). -/
noncomputable def distance (sphere1 sphere2 : Sphere) : ℝ :=
  Real.sqrt ((relativePosition sphere1 sphere2).x * (relativePosition sphere1 sphere2).x +
    (relativePosition sphere1 sphere2).y * (relativePosition sphere1 sphere2).y)

/-- `totalRadius` local of `handleSphereCollision` (line 66). -/
def totalRadius : ℝ := 2 * SPHERE_RADIUS

/-- `penetration` local of `handleSphereCollision` (line 71). -/
noncomputable def penetration (sphere1 sphere2 : Sphere) : ℝ :=
  totalRadius - distance sphere1 sphere2

/-- `normal` local of `handleSphereCollision` (line 74): the relative position
scaled by `1.0 / distance`.  When the centers coincide this divides by zero;
in the real-number model `1 / 0 = 0`, the embedding's stand-in for the
non-finite result IEEE doubles produce. -/
noncomputable def normal (sphere1 sphere2 : Sphere) : Vector2 :=
  relativePosition sphere1 sphere2 * (1.0 / distance sphere1 sphere2)

/-- `relativeVelocity` local of `handleSphereCollision` (line 77). -/
def relativeVelocity (sphere1 sphere2 : Sphere) : Vector2 :=
  sphere2.velocity - sphere1.velocity

/-- `relativeSpeed` local of `handleSphereCollision` (line 78): the closing
speed along the contact normal. -/
noncomputable def relativeSpeed (sphere1 sphere2 : Sphere) : ℝ :=
  (normal sphere1 sphere2).x * (relativeVelocity sphere1 sphere2).x +
    (normal sphere1 sphere2).y * (relativeVelocity sphere1 sphere2).y

/-- `impulse` local of `handleSphereCollision` (line 82). -/
noncomputable def impulse (sphere1 sphere2 : Sphere) : ℝ :=
  (2.0 * relativeSpeed sphere1 sphere2) /
    (1 / sphere1.bounceFactor + 1 / sphere2.bounceFactor)

/-- The velocity and position updates of `handleSphereCollision`
(lines 82-95), applied when the spheres overlap and are approaching. -/
noncomputable def applyCollisionResponse (sphere1 sphere2 : Sphere) : Sphere × Sphere :=
  let imp := impulse sphere1 sphere2
  let n := normal sphere1 sphere2
  let moveDistance := penetration sphere1 sphere2 * 0.5
  ({ sphere1 with
      velocity := ⟨sphere1.velocity.x + imp * (n.x * (1.0 / sphere1.bounceFactor)),
        sphere1.velocity.y + imp * (n.y * (1.0 / sphere1.bounceFactor))⟩
      position := ⟨sphere1.position.x - moveDistance * n.x,
        sphere1.position.y - moveDistance * n.y⟩ },
   { sphere2 with
      velocity := ⟨sphere2.velocity.x - imp * (n.x * (1.0 / sphere2.bounceFactor)),
        sphere2.velocity.y - imp * (n.y * (1.0 / sphere2.bounceFactor))⟩
      position := ⟨sphere2.position.x + moveDistance * n.x,
        sphere2.position.y + moveDistance * n.y⟩ })

/-- `handleSphereCollision` (lines 62-98): if the spheres overlap and are
moving toward each other, apply the impulse response and positional
correction; otherwise leave both spheres untouched. -/
noncomputable def handleSphereCollision (sphere1 sphere2 : Sphere) : Sphere × Sphere :=
  if distance sphere1 sphere2 < totalRadius then
    if relativeSpeed sphere1 sphere2 < 0 then
      applyCollisionResponse sphere1 sphere2
    else (sphere1, sphere2)
  else (sphere1, sphere2)

/-- Gravity and position integration of the main loop (lines 148-152):
`velocity.y += GRAVITY` then `position = position + velocity`. -/
def integrate (s : Sphere) : Sphere :=
  let v : Vector2 := ⟨s.velocity.x, s.velocity.y + GRAVITY⟩
  { s with velocity := v, position := s.position + v }

/-- Boundary resolution of the main loop (lines 154-177): bottom edge first,
then left edge, else right edge; no top-edge check.  Wall bounces scale the
velocity by the global `BOUNCE_FACTOR`, not the sphere's own field. -/
noncomputable def resolveBoundaries (s : Sphere) : Sphere :=
  let s1 :=
    if s.position.y + SPHERE_RADIUS ≥ SCREEN_HEIGHT then
      { s with position := ⟨s.position.x, SCREEN_HEIGHT - SPHERE_RADIUS⟩
               velocity := ⟨s.velocity.x, -s.velocity.y * BOUNCE_FACTOR⟩ }
    else s
  if s1.position.x - SPHERE_RADIUS ≤ 0 then
    { s1 with position := ⟨SPHERE_RADIUS, s1.position.y⟩
              velocity := ⟨-s1.velocity.x * BOUNCE_FACTOR, s1.velocity.y⟩ }
  else if s1.position.x + SPHERE_RADIUS ≥ SCREEN_WIDTH then
    { s1 with position := ⟨SCREEN_WIDTH - SPHERE_RADIUS, s1.position.y⟩
              velocity := ⟨-s1.velocity.x * BOUNCE_FACTOR, s1.velocity.y⟩ }
  else s1

/-- One step of the inner collision loop (lines 180-184): collide the spheres
at indices `i` and `j` of the list, skipping the `i = j` case (the
`&sphere != &otherSphere` address check in the source). -/
noncomputable def collideStep (spheres : List Sphere) (i j : ℕ) : List Sphere :=
  if i = j then spheres
  else
    match spheres.get? i, spheres.get? j with
    | some a, some b =>
        let p := handleSphereCollision a b
        (spheres.set i p.1).set j p.2
    | _, _ => spheres

/-- The inner loop `for (auto& otherSphere : spheres)` (lines 180-184):
collide sphere `i` with every sphere of the list in index order. -/
noncomputable def collideAll (spheres : List Sphere) (i : ℕ) : List Sphere :=
  (List.range spheres.length).foldl (fun acc j => collideStep acc i j) spheres

/-- The body of the outer update loop for the sphere at index `i`
(lines 147-185): integrate, resolve boundaries, then collide with every
other sphere. -/
noncomputable def updateSphere (spheres : List Sphere) (i : ℕ) : List Sphere :=
  match spheres.get? i with
  | some s => collideAll (spheres.set i (resolveBoundaries (integrate s))) i
  | none => spheres

/-- One tick of the update loop (lines 146-185): process every sphere in
list order, each getting integration, boundary resolution and its collision
pass before the next sphere is touched. -/
noncomputable def tick (spheres : List Sphere) : List Sphere :=
  (List.range spheres.length).foldl updateSphere spheres

/-- `n` consecutive ticks of the update loop. -/
noncomputable def tickN : ℕ → List Sphere → List Sphere
  | 0, spheres => spheres
  | n + 1, spheres => tick (tickN n spheres)

/-- The sphere built on a left mouse click (lines 137-141): position at the
click coordinates, zero velocity, a color from the random generator (a
parameter here), `bounceFactor` set to the global constant. -/
def spawnSphere (x y : ℝ) (color : ℕ) : Sphere :=
  { position := ⟨x, y⟩, velocity := ⟨0.0, 0.0⟩, color := color,
    bounceFactor := BOUNCE_FACTOR }

/-- `spheres.push_back(newSphere)` on a left mouse click (lines 135-143). -/
def spawn (spheres : List Sphere) (x y : ℝ) (color : ℕ) : List Sphere :=
  spheres ++ [spawnSphere x y color]

/-! ### Basic facts about the embedded operations -/

theorem distance_nonneg (a b : Sphere) : 0 ≤ distance a b :=
  Real.sqrt_nonneg _

theorem sq_distance (a b : Sphere) :
    distance a b * distance a b =
      (relativePosition a b).x * (relativePosition a b).x +
        (relativePosition a b).y * (relativePosition a b).y :=
  Real.mul_self_sqrt (add_nonneg (mul_self_nonneg _) (mul_self_nonneg _))

/-- On a horizontal configuration the distance computed by the collision code
is the absolute horizontal offset. -/
theorem distance_horizontal (a b : Sphere) (hy : b.position.y = a.position.y) :
    distance a b = |b.position.x - a.position.x| := by
  unfold distance relativePosition
  simp only [Vector2.sub_x, Vector2.sub_y, hy, sub_self, mul_zero, add_zero]
  exact Real.sqrt_mul_self_eq_abs _

/-- If the closing speed is nonzero then the centers cannot coincide: at zero
distance the computed normal is the zero vector, making the closing speed 0. -/
theorem distance_pos_of_relativeSpeed_neg (a b : Sphere)
    (h : relativeSpeed a b < 0) : 0 < distance a b := by
  rcases lt_or_eq_of_le (distance_nonneg a b) with hd | hd
  · exact hd
  · exfalso
    rw [relativeSpeed, normal, ← hd] at h
    norm_num at h

/-- The boundary-resolution step always leaves the sphere inside the arena on
the x axis and above-or-at distance `SPHERE_RADIUS` from the bottom; it
enforces no lower bound on y. -/
theorem resolveBoundaries_mem_bounds (s : Sphere) :
    SPHERE_RADIUS ≤ (resolveBoundaries s).position.x ∧
      (resolveBoundaries s).position.x ≤ SCREEN_WIDTH - SPHERE_RADIUS ∧
      (resolveBoundaries s).position.y ≤ SCREEN_HEIGHT - SPHERE_RADIUS := by
  simp only [resolveBoundaries]
  split_ifs <;>
    refine ⟨?_, ?_, ?_⟩ <;>
    simp_all only [SPHERE_RADIUS, SCREEN_WIDTH, SCREEN_HEIGHT, not_le, ge_iff_le,
      tsub_le_iff_right] <;>
    norm_num <;> linarith

/-- A one-sphere world gets exactly integration and boundary resolution in a
tick; the collision loop only visits the `i = j` case, which the address check
skips. -/
theorem tick_singleton (s : Sphere) :
    tick [s] = [resolveBoundaries (integrate s)] := by
  simp [tick, updateSphere, collideAll, collideStep, List.range_succ]

/-- The trajectory of a lone sphere: each tick is integration followed by
boundary resolution. -/
noncomputable def singleStepN : ℕ → Sphere → Sphere
  | 0, s => s
  | n + 1, s => resolveBoundaries (integrate (singleStepN n s))

theorem tickN_singleton (n : ℕ) (s : Sphere) :
    tickN n [s] = [singleStepN n s] := by
  induction n with
  | zero => rfl
  | succ n ih => rw [tickN, ih, tick_singleton, singleStepN]

/-! ### Claim theorems -/

/-- C10: the boundary-resolution step never reads the sphere's own
`bounceFactor` field — wall bounces scale velocity by the global
`BOUNCE_FACTOR` — so two spheres identical except in `bounceFactor` leave the
boundary step with identical positions and velocities. -/
theorem claim_C10_boundary_ignores_bounceFactor (s t : Sphere)
    (hp : s.position = t.position) (hv : s.velocity = t.velocity) :
    (resolveBoundaries s).position = (resolveBoundaries t).position ∧
      (resolveBoundaries s).velocity = (resolveBoundaries t).velocity := by
  obtain ⟨ps, vs, cs, bs⟩ := s
  obtain ⟨pt, vt, ct, bt⟩ := t
  have hp' : ps = pt := hp
  have hv' : vs = vt := hv
  subst hp'
  subst hv'
  simp only [resolveBoundaries]
  split_ifs <;> exact ⟨rfl, rfl⟩

def c10s : Sphere := ⟨⟨10, 100⟩, ⟨3, 4⟩, 0, 0.8⟩

def c10t : Sphere := ⟨⟨10, 100⟩, ⟨3, 4⟩, 0, 0.3⟩

/-- Witness for C10 at two concrete spheres differing only in `bounceFactor`. -/
theorem claim_C10_witness :
    (resolveBoundaries c10s).position = (resolveBoundaries c10t).position ∧
      (resolveBoundaries c10s).velocity = (resolveBoundaries c10t).velocity :=
  claim_C10_boundary_ignores_bounceFactor c10s c10t rfl rfl

/-- C8: two overlapping spheres whose closing speed along the contact normal
is nonnegative are left completely untouched by `handleSphereCollision` —
velocities and, per the coupling of the positional correction to the same
branch, positions too. -/
theorem claim_C8_separating_noop (a b : Sphere)
    (hover : distance a b < totalRadius) (hsep : 0 ≤ relativeSpeed a b) :
    handleSphereCollision a b = (a, b) := by
  rw [handleSphereCollision, if_pos hover, if_neg (not_lt.mpr hsep)]

def c8a : Sphere := ⟨⟨100, 100⟩, ⟨-1, 0⟩, 0, 0.8⟩

def c8b : Sphere := ⟨⟨130, 100⟩, ⟨1, 0⟩, 0, 0.8⟩

/-- Witness for C8: two overlapping spheres 30 apart moving away from each
other are untouched. -/
theorem claim_C8_witness :
    distance c8a c8b < totalRadius ∧ 0 ≤ relativeSpeed c8a c8b ∧
      handleSphereCollision c8a c8b = (c8a, c8b) := by
  have hd : distance c8a c8b = 30 := by
    rw [distance_horizontal c8a c8b rfl]
    norm_num [c8a, c8b]
  have hover : distance c8a c8b < totalRadius := by
    rw [hd]; norm_num [totalRadius, SPHERE_RADIUS]
  have hsep : 0 ≤ relativeSpeed c8a c8b := by
    simp only [relativeSpeed, normal, relativeVelocity, relativePosition, hd,
      Vector2.sub_x, Vector2.sub_y, Vector2.smul_x, Vector2.smul_y]
    norm_num [c8a, c8b]
  exact ⟨hover, hsep, claim_C8_separating_noop c8a c8b hover hsep⟩

/-- C9: `spawn` appends exactly one sphere — positioned at the click
coordinates, with zero velocity and the global `BOUNCE_FACTOR` — and the
prefix of previously existing spheres is unchanged.  (The `Sphere` struct
carries no radius field; every radius in the source is the global
`SPHERE_RADIUS` constant, shared by all spheres.) -/
theorem claim_C9_spawn_appends (spheres : List Sphere) (x y : ℝ) (color : ℕ) :
    spawn spheres x y color = spheres ++ [spawnSphere x y color] ∧
      (spawn spheres x y color).length = spheres.length + 1 ∧
      (spawn spheres x y color).take spheres.length = spheres ∧
      (spawnSphere x y color).position = ⟨x, y⟩ ∧
      (spawnSphere x y color).velocity = ⟨0, 0⟩ ∧
      (spawnSphere x y color).bounceFactor = BOUNCE_FACTOR := by
  refine ⟨rfl, by simp [spawn], ?_, rfl,
    by norm_num [spawnSphere, Vector2.mk.injEq], rfl⟩
  simp [spawn, List.take_left]

/-- C7: when two spheres' centers coincide the collision code's overlap guard
`distance < totalRadius` still holds, so the normalize step runs with a zero
divisor; in the real-number model `1 / 0 = 0`, so the computed "normal" is
the degenerate zero vector (the stand-in for the non-finite values IEEE
division by zero produces) — the division is unguarded and reachable. -/
theorem claim_C7_zero_distance_degenerate (a b : Sphere)
    (h : b.position = a.position) :
    distance a b = 0 ∧ distance a b < totalRadius ∧
      normal a b = ⟨0, 0⟩ := by
  have hrel : relativePosition a b = ⟨0, 0⟩ := by
    simp [relativePosition, h]
    exact Vector2.ext (sub_self _) (sub_self _)
  have hd : distance a b = 0 := by
    rw [distance, hrel]
    norm_num
  refine ⟨hd, ?_, ?_⟩
  · rw [hd]; norm_num [totalRadius, SPHERE_RADIUS]
  · rw [normal, hrel]
    exact Vector2.ext (by norm_num) (by norm_num)

def c7a : Sphere := ⟨⟨100, 100⟩, ⟨0, 0⟩, 0, 0.8⟩

def c7b : Sphere := ⟨⟨100, 100⟩, ⟨0, -5⟩, 0, 0.8⟩

/-- Witness for C7 at two concrete coincident spheres. -/
theorem claim_C7_witness :
    distance c7a c7b = 0 ∧ distance c7a c7b < totalRadius ∧
      normal c7a c7b = ⟨0, 0⟩ :=
  claim_C7_zero_distance_degenerate c7a c7b rfl

def c1s : Sphere := ⟨⟨100, 10⟩, ⟨0, 0⟩, 0, 0.8⟩

/-- C1 counterexample: a sphere spawned at (100, 10) — a valid click
position — ends the very next tick at `y = 10.2 < SPHERE_RADIUS`: the code
has no top-edge check, so the claimed `radius ≤ y` bound fails. -/
theorem claim_C1_counterexample :
    ¬ SPHERE_RADIUS ≤ (tick [c1s]).headI.position.y := by
  rw [tick_singleton]
  norm_num [integrate, resolveBoundaries, c1s, SPHERE_RADIUS, SCREEN_HEIGHT,
    SCREEN_WIDTH, GRAVITY]

/-- C1 amended: right after the boundary-resolution step of a tick every
sphere satisfies `SPHERE_RADIUS ≤ x ≤ SCREEN_WIDTH - SPHERE_RADIUS` and
`y ≤ SCREEN_HEIGHT - SPHERE_RADIUS` — there is no lower bound on `y` (no
top-edge check), and the collision pass running after the boundary step may
push a sphere back out of these bounds within the same tick. -/
theorem claim_C1_boundary_step_bounds (s : Sphere) :
    SPHERE_RADIUS ≤ (resolveBoundaries s).position.x ∧
      (resolveBoundaries s).position.x ≤ SCREEN_WIDTH - SPHERE_RADIUS ∧
      (resolveBoundaries s).position.y ≤ SCREEN_HEIGHT - SPHERE_RADIUS :=
  resolveBoundaries_mem_bounds s

/-- C6 amended: in a world free of collision interference (here: a single
sphere), after every tick `SPHERE_RADIUS ≤ x ≤ SCREEN_WIDTH - SPHERE_RADIUS`
and `y ≤ SCREEN_HEIGHT - SPHERE_RADIUS` hold, with no lower bound on y.  With
several bodies the collision pass, which runs after the boundary pass, can
push a sphere back out of these bounds (see the counterexample). -/
theorem claim_C6_single_body_bounds (n : ℕ) (hn : 1 ≤ n) (s : Sphere) :
    ∀ t ∈ tickN n [s],
      SPHERE_RADIUS ≤ t.position.x ∧
        t.position.x ≤ SCREEN_WIDTH - SPHERE_RADIUS ∧
        t.position.y ≤ SCREEN_HEIGHT - SPHERE_RADIUS := by
  obtain ⟨m, rfl⟩ : ∃ m, n = m + 1 := ⟨n - 1, by omega⟩
  intro t ht
  rw [tickN_singleton] at ht
  simp only [List.mem_singleton] at ht
  subst ht
  rw [singleStepN]
  exact resolveBoundaries_mem_bounds _

def c6w : Sphere := ⟨⟨100, 100⟩, ⟨0, 0⟩, 0, 0.8⟩

/-- Witness for the amended C6 at a concrete sphere after one tick. -/
theorem claim_C6_witness :
    (⟨⟨100, 100.2⟩, ⟨0, 0.2⟩, 0, 0.8⟩ : Sphere) ∈ tickN 1 [c6w] ∧
      SPHERE_RADIUS ≤ (100 : ℝ) ∧ (100 : ℝ) ≤ SCREEN_WIDTH - SPHERE_RADIUS ∧
      (100.2 : ℝ) ≤ SCREEN_HEIGHT - SPHERE_RADIUS := by
  have hstep : singleStepN 1 c6w = ⟨⟨100, 100.2⟩, ⟨0, 0.2⟩, 0, 0.8⟩ := by
    rw [singleStepN, singleStepN]
    norm_num [integrate, resolveBoundaries, c6w, GRAVITY, SPHERE_RADIUS,
      SCREEN_HEIGHT, SCREEN_WIDTH, Sphere.mk.injEq, Vector2.mk.injEq]
  have hmem : (⟨⟨100, 100.2⟩, ⟨0, 0.2⟩, 0, 0.8⟩ : Sphere) ∈ tickN 1 [c6w] := by
    rw [tickN_singleton, hstep]
    exact List.mem_singleton.mpr rfl
  have := claim_C6_single_body_bounds 1 le_rfl c6w _ hmem
  exact ⟨hmem, this.1, this.2.1, this.2.2⟩

/-- C4 amended: a lone sphere approaching the floor with `velocity.y = v > 0`
that crosses the floor within the tick ends the tick with
`velocity.y = -(v + GRAVITY) * BOUNCE_FACTOR` — gravity is added to the
velocity before the position update and the bounce reflects that increased
speed, not the incoming `v` — and `position.y = SCREEN_HEIGHT -
SPHERE_RADIUS` exactly.  (Side-wall contact cannot affect the y
components.) -/
theorem claim_C4_floor_bounce (s : Sphere) (v : ℝ)
    (hv : s.velocity.y = v) (hvpos : 0 < v)
    (_habove : s.position.y + SPHERE_RADIUS < SCREEN_HEIGHT)
    (hcross : SCREEN_HEIGHT ≤ s.position.y + (v + GRAVITY) + SPHERE_RADIUS) :
    (tick [s]).headI.velocity.y = -(v + GRAVITY) * BOUNCE_FACTOR ∧
      (tick [s]).headI.position.y = SCREEN_HEIGHT - SPHERE_RADIUS := by
  rw [tick_singleton]
  subst hv
  simp only [List.headI, integrate, resolveBoundaries, Vector2.add_x,
    Vector2.add_y]
  split_ifs with h1 h2 h3 <;>
    first
      | (exfalso; simp only [ge_iff_le, not_le] at h1; linarith)
      | exact ⟨by ring, rfl⟩

def c4s : Sphere := ⟨⟨100, 459⟩, ⟨0, 1⟩, 0, 0.8⟩

/-- Witness for the amended C4: a sphere at `y = 459` falling with `v = 1`
crosses the floor and ends the tick with `velocity.y = -1.2 * 0.8`. -/
theorem claim_C4_witness :
    (0 : ℝ) < 1 ∧
      (tick [c4s]).headI.velocity.y = -((1 : ℝ) + GRAVITY) * BOUNCE_FACTOR ∧
      (tick [c4s]).headI.position.y = SCREEN_HEIGHT - SPHERE_RADIUS := by
  have h := claim_C4_floor_bounce c4s 1 rfl (by norm_num)
    (by norm_num [c4s, SPHERE_RADIUS, SCREEN_HEIGHT])
    (by norm_num [c4s, SPHERE_RADIUS, SCREEN_HEIGHT, GRAVITY])
  exact ⟨by norm_num, h.1, h.2⟩

/-- C4 counterexample: the same sphere — approaching the floor with
`velocity.y = 1 > 0`, crossing it within one tick, touching nothing else —
ends the tick with `velocity.y = -0.96 ≠ -1 * BOUNCE_FACTOR = -0.8`: the
bounce multiplies the post-gravity speed `v + GRAVITY`, not the incoming
`v`. -/
theorem claim_C4_counterexample :
    (0 : ℝ) < 1 ∧
      (tick [c4s]).headI.position.y = SCREEN_HEIGHT - SPHERE_RADIUS ∧
      (tick [c4s]).headI.velocity.y ≠ -1 * BOUNCE_FACTOR := by
  rw [tick_singleton]
  norm_num [singleStepN, integrate, resolveBoundaries, c4s, GRAVITY,
    SPHERE_RADIUS, SCREEN_HEIGHT, SCREEN_WIDTH, BOUNCE_FACTOR]

/-- Closed form of the gravity-only trajectory: with zero initial velocity,
strictly inside the side walls, and never reaching the floor, `n` ticks give
`velocity.y = n * GRAVITY` and `position.y = y₀ + GRAVITY * (1 + 2 + ⋯ + n)`
exactly, because the velocity is updated before the position each tick. -/
theorem singleStepN_gravity_closed (s : Sphere) (n : ℕ)
    (hv : s.velocity = ⟨0, 0⟩)
    (hx1 : SPHERE_RADIUS < s.position.x)
    (hx2 : s.position.x + SPHERE_RADIUS < SCREEN_WIDTH)
    (hy : ∀ k : ℕ, 1 ≤ k → k ≤ n →
      s.position.y + GRAVITY * (∑ i in Finset.range (k + 1), (i : ℝ)) +
        SPHERE_RADIUS < SCREEN_HEIGHT) :
    singleStepN n s =
      ⟨⟨s.position.x,
          s.position.y + GRAVITY * (∑ i in Finset.range (n + 1), (i : ℝ))⟩,
        ⟨0, n * GRAVITY⟩, s.color, s.bounceFactor⟩ := by
  induction n with
  | zero =>
    obtain ⟨p, v, c, bf⟩ := s
    have hv' : v = ⟨0, 0⟩ := hv
    subst hv'
    simp [singleStepN, Finset.sum_range_one]
  | succ n ih =>
    have hsum : (∑ i in Finset.range (n + 2), (i : ℝ)) =
        (∑ i in Finset.range (n + 1), (i : ℝ)) + ((n : ℝ) + 1) := by
      rw [Finset.sum_range_succ]
      push_cast
      ring
    rw [singleStepN, ih (fun k h1 h2 => hy k h1 (le_trans h2 (Nat.le_succ n)))]
    have hyn : s.position.y +
        GRAVITY * (∑ i in Finset.range (n + 2), (i : ℝ)) +
        SPHERE_RADIUS < SCREEN_HEIGHT := hy (n + 1) (by omega) le_rfl
    rw [hsum] at hyn
    clear ih hv hy
    simp only [integrate, resolveBoundaries, Vector2.add_mk, Vector2.add_x,
      Vector2.add_y]
    split_ifs <;>
      first
        | (exfalso
           simp only [Vector2.add_mk, Vector2.add_x, Vector2.add_y, ge_iff_le,
             not_le] at *
           ring_nf at *
           linarith)
        | (simp only [Vector2.add_mk, Vector2.add_x, Vector2.add_y,
             Sphere.mk.injEq, Vector2.mk.injEq]
           refine ⟨⟨by ring, ?_⟩, ⟨trivial, by push_cast; ring⟩, trivial, trivial⟩
           rw [show n + 1 + 1 = n + 2 from rfl, hsum]
           ring)

/-- C5: a lone sphere with zero initial velocity, wholly inside the side
walls and never reaching the floor during the run, has after `n` ticks
`velocity.y = n * GRAVITY` and
`position.y = y₀ + GRAVITY * (1 + 2 + ⋯ + n)`, exactly. -/
theorem claim_C5_gravity_only (s : Sphere) (n : ℕ)
    (hv : s.velocity = ⟨0, 0⟩)
    (hx1 : SPHERE_RADIUS < s.position.x)
    (hx2 : s.position.x + SPHERE_RADIUS < SCREEN_WIDTH)
    (hy : ∀ k : ℕ, 1 ≤ k → k ≤ n →
      s.position.y + GRAVITY * (∑ i in Finset.range (k + 1), (i : ℝ)) +
        SPHERE_RADIUS < SCREEN_HEIGHT) :
    (tickN n [s]).headI.velocity.y = n * GRAVITY ∧
      (tickN n [s]).headI.position.y =
        s.position.y + GRAVITY * (∑ i in Finset.range (n + 1), (i : ℝ)) := by
  rw [tickN_singleton, singleStepN_gravity_closed s n hv hx1 hx2 hy]
  exact ⟨rfl, rfl⟩

def c5s : Sphere := ⟨⟨100, 0⟩, ⟨0, 0⟩, 0, 0.8⟩

/-- Witness for C5 after three ticks: `velocity.y = 3 * GRAVITY` and
`position.y = 0 + GRAVITY * (1 + 2 + 3)`. -/
theorem claim_C5_witness :
    (tickN 3 [c5s]).headI.velocity.y = (3 : ℕ) * GRAVITY ∧
      (tickN 3 [c5s]).headI.position.y =
        c5s.position.y + GRAVITY * (∑ i in Finset.range 4, (i : ℝ)) :=
  claim_C5_gravity_only c5s 3 rfl
    (by norm_num [c5s, SPHERE_RADIUS])
    (by norm_num [c5s, SPHERE_RADIUS, SCREEN_WIDTH])
    (by
      intro k h1 h3
      interval_cases k <;>
        norm_num [Finset.sum_range_succ, c5s, GRAVITY, SPHERE_RADIUS,
          SCREEN_HEIGHT])

/-- Unfolding of a tick on a two-sphere world: sphere 0 is integrated,
boundary-resolved and collided against sphere 1 (which has not yet been
integrated this tick); then sphere 1 is integrated, boundary-resolved and
collided against the already-updated sphere 0. -/
theorem tick_pair (a b : Sphere) :
    tick [a, b] =
      [(handleSphereCollision
          (resolveBoundaries (integrate
            (handleSphereCollision (resolveBoundaries (integrate a)) b).2))
          (handleSphereCollision (resolveBoundaries (integrate a)) b).1).2,
       (handleSphereCollision
          (resolveBoundaries (integrate
            (handleSphereCollision (resolveBoundaries (integrate a)) b).2))
          (handleSphereCollision (resolveBoundaries (integrate a)) b).1).1] := by
  simp [tick, updateSphere, collideAll, collideStep, List.range_succ]

def c6a : Sphere := ⟨⟨20, 460⟩, ⟨0, 0⟩, 0, 0.8⟩

def c6b : Sphere := ⟨⟨45, 460⟩, ⟨-5, 0⟩, 0, 0.8⟩

/-- C6 counterexample: sphere `c6a` rests on the floor at the left wall and
`c6b` overlaps it moving left.  During the tick the boundary pass clamps
`c6a` to `x = 20`, but the collision pass, which runs afterwards, pushes it
back out to `x = 12.5 < SPHERE_RADIUS`: the claimed per-tick invariant
`radius ≤ x` fails once collisions interfere. -/
theorem claim_C6_counterexample :
    ¬ SPHERE_RADIUS ≤ (tick [c6a, c6b]).headI.position.x := by
  have h1 : resolveBoundaries (integrate c6a) =
      ⟨⟨20, 460⟩, ⟨0, -0.16⟩, 0, 0.8⟩ := by
    norm_num [integrate, resolveBoundaries, c6a, GRAVITY, SPHERE_RADIUS,
      SCREEN_HEIGHT, SCREEN_WIDTH, BOUNCE_FACTOR, Sphere.mk.injEq,
      Vector2.mk.injEq]
  have hd : distance (⟨⟨20, 460⟩, ⟨0, -0.16⟩, 0, 0.8⟩ : Sphere) c6b = 25 := by
    rw [distance_horizontal _ _ (by norm_num [c6b])]
    norm_num [c6b]
  have hs : relativeSpeed (⟨⟨20, 460⟩, ⟨0, -0.16⟩, 0, 0.8⟩ : Sphere) c6b = -5 := by
    simp only [relativeSpeed, normal, relativeVelocity, relativePosition, hd,
      Vector2.sub_x, Vector2.sub_y, Vector2.smul_x, Vector2.smul_y]
    norm_num [c6b]
  have h2 : handleSphereCollision (⟨⟨20, 460⟩, ⟨0, -0.16⟩, 0, 0.8⟩ : Sphere) c6b =
      (⟨⟨12.5, 460⟩, ⟨-5, -0.16⟩, 0, 0.8⟩, ⟨⟨52.5, 460⟩, ⟨0, 0⟩, 0, 0.8⟩) := by
    rw [handleSphereCollision,
      if_pos (by rw [hd]; norm_num [totalRadius, SPHERE_RADIUS]),
      if_pos (by rw [hs]; norm_num)]
    simp only [applyCollisionResponse, impulse, hs, penetration, hd, normal,
      relativePosition, totalRadius, SPHERE_RADIUS, Vector2.sub_x,
      Vector2.sub_y, Vector2.smul_x, Vector2.smul_y]
    norm_num [c6b, Sphere.mk.injEq, Vector2.mk.injEq]
  have h3 : resolveBoundaries (integrate (⟨⟨52.5, 460⟩, ⟨0, 0⟩, 0, 0.8⟩ : Sphere)) =
      ⟨⟨52.5, 460⟩, ⟨0, -0.16⟩, 0, 0.8⟩ := by
    norm_num [integrate, resolveBoundaries, GRAVITY, SPHERE_RADIUS,
      SCREEN_HEIGHT, SCREEN_WIDTH, BOUNCE_FACTOR, Sphere.mk.injEq,
      Vector2.mk.injEq]
  have hd40 : distance (⟨⟨52.5, 460⟩, ⟨0, -0.16⟩, 0, 0.8⟩ : Sphere)
      (⟨⟨12.5, 460⟩, ⟨-5, -0.16⟩, 0, 0.8⟩ : Sphere) = 40 := by
    rw [distance_horizontal _ _ (by norm_num)]
    norm_num
  have h4 : handleSphereCollision (⟨⟨52.5, 460⟩, ⟨0, -0.16⟩, 0, 0.8⟩ : Sphere)
      (⟨⟨12.5, 460⟩, ⟨-5, -0.16⟩, 0, 0.8⟩ : Sphere) =
      (⟨⟨52.5, 460⟩, ⟨0, -0.16⟩, 0, 0.8⟩, ⟨⟨12.5, 460⟩, ⟨-5, -0.16⟩, 0, 0.8⟩) := by
    rw [handleSphereCollision,
      if_neg (by rw [hd40]; norm_num [totalRadius, SPHERE_RADIUS])]
  rw [tick_pair, h1]
  simp only [h2, h3, h4, List.headI]
  norm_num [SPHERE_RADIUS]

theorem relativePosition_post (a b : Sphere) (hd : distance a b ≠ 0) :
    relativePosition (applyCollisionResponse a b).1 (applyCollisionResponse a b).2 =
      relativePosition a b * (totalRadius / distance a b) := by
  refine Vector2.ext ?_ ?_ <;>
    simp only [applyCollisionResponse, relativePosition, penetration, normal,
      Vector2.sub_x, Vector2.sub_y, Vector2.smul_x, Vector2.smul_y] <;>
    field_simp <;>
    ring

/-- The positional correction puts the centers exactly `totalRadius` apart. -/
theorem applyCollisionResponse_distance (a b : Sphere) (hd : 0 < distance a b) :
    distance (applyCollisionResponse a b).1 (applyCollisionResponse a b).2 =
      totalRadius := by
  have hc : (0 : ℝ) ≤ totalRadius / distance a b := by
    apply div_nonneg _ hd.le
    norm_num [totalRadius, SPHERE_RADIUS]
  rw [distance, relativePosition_post a b hd.ne']
  simp only [Vector2.smul_x, Vector2.smul_y]
  rw [show (relativePosition a b).x * (totalRadius / distance a b) *
        ((relativePosition a b).x * (totalRadius / distance a b)) +
        (relativePosition a b).y * (totalRadius / distance a b) *
        ((relativePosition a b).y * (totalRadius / distance a b)) =
      (totalRadius / distance a b) ^ 2 *
        ((relativePosition a b).x * (relativePosition a b).x +
          (relativePosition a b).y * (relativePosition a b).y) from by ring]
  rw [Real.sqrt_mul (sq_nonneg _), Real.sqrt_sq hc]
  rw [show Real.sqrt ((relativePosition a b).x * (relativePosition a b).x +
      (relativePosition a b).y * (relativePosition a b).y) = distance a b from rfl]
  field_simp

/-- The computed contact normal is a unit vector whenever the centers do not
coincide. -/
theorem normal_unit (a b : Sphere) (hd : distance a b ≠ 0) :
    (normal a b).x * (normal a b).x + (normal a b).y * (normal a b).y = 1 := by
  have hs := sq_distance a b
  simp only [normal, Vector2.smul_x, Vector2.smul_y]
  field_simp
  first
    | linear_combination hs
    | linear_combination -hs

/-- The positional correction does not change the direction of the contact
normal. -/
theorem normal_post (a b : Sphere) (hd : 0 < distance a b) :
    normal (applyCollisionResponse a b).1 (applyCollisionResponse a b).2 =
      normal a b := by
  have hT : totalRadius ≠ 0 := by norm_num [totalRadius, SPHERE_RADIUS]
  rw [normal, relativePosition_post a b hd.ne',
    applyCollisionResponse_distance a b hd]
  refine Vector2.ext ?_ ?_ <;>
    simp only [normal, Vector2.smul_x, Vector2.smul_y] <;>
    field_simp <;>
    ring

/-- The impulse update exactly reverses the closing speed along the contact
normal. -/
theorem applyCollisionResponse_relativeSpeed (a b : Sphere)
    (hd : 0 < distance a b)
    (ha : 0 < a.bounceFactor) (hb : 0 < b.bounceFactor) :
    relativeSpeed (applyCollisionResponse a b).1 (applyCollisionResponse a b).2 =
      - relativeSpeed a b := by
  have hD : 1 / a.bounceFactor + 1 / b.bounceFactor ≠ 0 := by positivity
  have hunit := normal_unit a b hd.ne'
  have hvx : (relativeVelocity (applyCollisionResponse a b).1
        (applyCollisionResponse a b).2).x =
      (relativeVelocity a b).x - impulse a b * (normal a b).x *
        (1 / a.bounceFactor + 1 / b.bounceFactor) := by
    simp only [applyCollisionResponse, relativeVelocity, Vector2.sub_x]
    ring
  have hvy : (relativeVelocity (applyCollisionResponse a b).1
        (applyCollisionResponse a b).2).y =
      (relativeVelocity a b).y - impulse a b * (normal a b).y *
        (1 / a.bounceFactor + 1 / b.bounceFactor) := by
    simp only [applyCollisionResponse, relativeVelocity, Vector2.sub_y]
    ring
  have hID : impulse a b * (1 / a.bounceFactor + 1 / b.bounceFactor) =
      2 * relativeSpeed a b := by
    rw [impulse, div_mul_cancel₀ _ hD]
    norm_num
  conv_lhs => rw [relativeSpeed]
  rw [normal_post a b hd, hvx, hvy]
  have expand : (normal a b).x * ((relativeVelocity a b).x -
        impulse a b * (normal a b).x *
          (1 / a.bounceFactor + 1 / b.bounceFactor)) +
      (normal a b).y * ((relativeVelocity a b).y -
        impulse a b * (normal a b).y *
          (1 / a.bounceFactor + 1 / b.bounceFactor)) =
      ((normal a b).x * (relativeVelocity a b).x +
        (normal a b).y * (relativeVelocity a b).y) -
        (impulse a b * (1 / a.bounceFactor + 1 / b.bounceFactor)) *
          ((normal a b).x * (normal a b).x +
            (normal a b).y * (normal a b).y) := by ring
  rw [expand, hID, hunit,
    show (normal a b).x * (relativeVelocity a b).x +
        (normal a b).y * (relativeVelocity a b).y = relativeSpeed a b from rfl]
  ring

/-- C3: for two overlapping spheres approaching each other (closing speed
negative, which forces the centers apart) with positive bounce factors, one
call to `handleSphereCollision` puts the centers exactly `2 * SPHERE_RADIUS`
apart — hence at least that far — and makes the relative velocity along the
contact normal nonnegative (it exactly reverses the closing speed). -/
theorem claim_C3_collision_resolves (a b : Sphere)
    (hover : distance a b < totalRadius)
    (hclose : relativeSpeed a b < 0)
    (ha : 0 < a.bounceFactor) (hb : 0 < b.bounceFactor) :
    totalRadius ≤
        distance (handleSphereCollision a b).1 (handleSphereCollision a b).2 ∧
      0 ≤ relativeSpeed (handleSphereCollision a b).1
          (handleSphereCollision a b).2 := by
  have hd : 0 < distance a b := distance_pos_of_relativeSpeed_neg a b hclose
  rw [handleSphereCollision, if_pos hover, if_pos hclose]
  constructor
  · rw [applyCollisionResponse_distance a b hd]
  · rw [applyCollisionResponse_relativeSpeed a b hd ha hb]
    linarith

def c3a : Sphere := ⟨⟨100, 100⟩, ⟨1, 0⟩, 0, 0.8⟩

def c3b : Sphere := ⟨⟨130, 100⟩, ⟨-1, 0⟩, 0, 0.8⟩

/-- Witness for C3: two overlapping spheres 30 apart closing at speed 2. -/
theorem claim_C3_witness :
    distance c3a c3b < totalRadius ∧ relativeSpeed c3a c3b < 0 ∧
      totalRadius ≤ distance (handleSphereCollision c3a c3b).1
          (handleSphereCollision c3a c3b).2 ∧
      0 ≤ relativeSpeed (handleSphereCollision c3a c3b).1
          (handleSphereCollision c3a c3b).2 := by
  have hd : distance c3a c3b = 30 := by
    rw [distance_horizontal _ _ (by norm_num [c3a, c3b])]
    norm_num [c3a, c3b]
  have hover : distance c3a c3b < totalRadius := by
    rw [hd]; norm_num [totalRadius, SPHERE_RADIUS]
  have hclose : relativeSpeed c3a c3b < 0 := by
    simp only [relativeSpeed, normal, relativeVelocity, relativePosition, hd,
      Vector2.sub_x, Vector2.sub_y, Vector2.smul_x, Vector2.smul_y]
    norm_num [c3a, c3b]
  have h := claim_C3_collision_resolves c3a c3b hover hclose
    (by norm_num [c3a]) (by norm_num [c3b])
  exact ⟨hover, hclose, h.1, h.2⟩

/-- Modelled from the spec: "for every body, integrate; for every body,
resolve boundaries; for every unordered pair, resolve collision" — the
staged three-pass tick of the spec's SimulationStep, defined here only to be
compared with the implemented `tick` (the source has no such staged loop). -/
noncomputable def tickStaged (spheres : List Sphere) : List Sphere :=
  let integrated := (spheres.map integrate).map resolveBoundaries
  (List.range integrated.length).foldl
    (fun acc i =>
      (List.range integrated.length).foldl
        (fun acc2 j => if i < j then collideStep acc2 i j else acc2) acc)
    integrated

/-- Unfolding of the staged tick on a two-sphere world: both spheres are
integrated and boundary-resolved first, then the single unordered pair is
collided once. -/
theorem tickStaged_pair (a b : Sphere) :
    tickStaged [a, b] =
      [(handleSphereCollision (resolveBoundaries (integrate a))
          (resolveBoundaries (integrate b))).1,
       (handleSphereCollision (resolveBoundaries (integrate a))
          (resolveBoundaries (integrate b))).2] := by
  simp [tickStaged, collideStep, List.range_succ]

/-- C2 amended: the staged three-pass procedure agrees with the implemented
update loop on worlds with at most one body; with two or more bodies the
implemented loop interleaves the passes per body and resolves each unordered
pair twice, and the final states differ (see the counterexample). -/
theorem claim_C2_staged_agrees_small (spheres : List Sphere)
    (h : spheres.length ≤ 1) : tickStaged spheres = tick spheres := by
  match spheres with
  | [] => rfl
  | [s] =>
    simp [tickStaged, tick, updateSphere, collideAll, collideStep,
      List.range_succ]
  | a :: b :: rest => simp at h

def c2w : Sphere := ⟨⟨100, 100⟩, ⟨0, 0⟩, 0, 0.8⟩

/-- Witness for the amended C2 on a one-sphere world. -/
theorem claim_C2_witness :
    [c2w].length ≤ 1 ∧ tickStaged [c2w] = tick [c2w] :=
  ⟨by norm_num, claim_C2_staged_agrees_small [c2w] (by norm_num)⟩

def c2a : Sphere := ⟨⟨100, 459.8⟩, ⟨5, 0⟩, 0, 0.8⟩

def c2b : Sphere := ⟨⟨130, 460⟩, ⟨-5, 0⟩, 0, 0.8⟩

/-- C2 counterexample: two overlapping spheres converging on the floor.  The
implemented loop collides sphere 0 with the not-yet-integrated sphere 1 and
ends the tick at `x = 97.5`; the staged three-pass procedure integrates and
boundary-resolves both first, collides the pair once, and ends at `x = 95`:
the staged procedure is not equivalent to the implemented loop. -/
theorem claim_C2_counterexample :
    tickStaged [c2a, c2b] ≠ tick [c2a, c2b] := by
  have i1 : resolveBoundaries (integrate c2a) =
      ⟨⟨105, 460⟩, ⟨5, -0.16⟩, 0, 0.8⟩ := by
    norm_num [integrate, resolveBoundaries, c2a, GRAVITY, SPHERE_RADIUS,
      SCREEN_HEIGHT, SCREEN_WIDTH, BOUNCE_FACTOR, Sphere.mk.injEq,
      Vector2.mk.injEq]
  have hd1 : distance (⟨⟨105, 460⟩, ⟨5, -0.16⟩, 0, 0.8⟩ : Sphere) c2b = 25 := by
    rw [distance_horizontal _ _ (by norm_num [c2b])]
    norm_num [c2b]
  have hs1 : relativeSpeed (⟨⟨105, 460⟩, ⟨5, -0.16⟩, 0, 0.8⟩ : Sphere) c2b =
      -10 := by
    simp only [relativeSpeed, normal, relativeVelocity, relativePosition, hd1,
      Vector2.sub_x, Vector2.sub_y, Vector2.smul_x, Vector2.smul_y]
    norm_num [c2b]
  have i2 : handleSphereCollision (⟨⟨105, 460⟩, ⟨5, -0.16⟩, 0, 0.8⟩ : Sphere) c2b =
      (⟨⟨97.5, 460⟩, ⟨-5, -0.16⟩, 0, 0.8⟩, ⟨⟨137.5, 460⟩, ⟨5, 0⟩, 0, 0.8⟩) := by
    rw [handleSphereCollision,
      if_pos (by rw [hd1]; norm_num [totalRadius, SPHERE_RADIUS]),
      if_pos (by rw [hs1]; norm_num)]
    simp only [applyCollisionResponse, impulse, hs1, penetration, hd1, normal,
      relativePosition, totalRadius, SPHERE_RADIUS, Vector2.sub_x,
      Vector2.sub_y, Vector2.smul_x, Vector2.smul_y]
    norm_num [c2b, Sphere.mk.injEq, Vector2.mk.injEq]
  have i3 : resolveBoundaries (integrate (⟨⟨137.5, 460⟩, ⟨5, 0⟩, 0, 0.8⟩ : Sphere)) =
      ⟨⟨142.5, 460⟩, ⟨5, -0.16⟩, 0, 0.8⟩ := by
    norm_num [integrate, resolveBoundaries, GRAVITY, SPHERE_RADIUS,
      SCREEN_HEIGHT, SCREEN_WIDTH, BOUNCE_FACTOR, Sphere.mk.injEq,
      Vector2.mk.injEq]
  have hd4 : distance (⟨⟨142.5, 460⟩, ⟨5, -0.16⟩, 0, 0.8⟩ : Sphere)
      (⟨⟨97.5, 460⟩, ⟨-5, -0.16⟩, 0, 0.8⟩ : Sphere) = 45 := by
    rw [distance_horizontal _ _ (by norm_num)]
    norm_num
  have i4 : handleSphereCollision (⟨⟨142.5, 460⟩, ⟨5, -0.16⟩, 0, 0.8⟩ : Sphere)
      (⟨⟨97.5, 460⟩, ⟨-5, -0.16⟩, 0, 0.8⟩ : Sphere) =
      (⟨⟨142.5, 460⟩, ⟨5, -0.16⟩, 0, 0.8⟩, ⟨⟨97.5, 460⟩, ⟨-5, -0.16⟩, 0, 0.8⟩) := by
    rw [handleSphereCollision,
      if_neg (by rw [hd4]; norm_num [totalRadius, SPHERE_RADIUS])]
  have s1 : resolveBoundaries (integrate c2b) =
      ⟨⟨125, 460⟩, ⟨-5, -0.16⟩, 0, 0.8⟩ := by
    norm_num [integrate, resolveBoundaries, c2b, GRAVITY, SPHERE_RADIUS,
      SCREEN_HEIGHT, SCREEN_WIDTH, BOUNCE_FACTOR, Sphere.mk.injEq,
      Vector2.mk.injEq]
  have hd2 : distance (⟨⟨105, 460⟩, ⟨5, -0.16⟩, 0, 0.8⟩ : Sphere)
      (⟨⟨125, 460⟩, ⟨-5, -0.16⟩, 0, 0.8⟩ : Sphere) = 20 := by
    rw [distance_horizontal _ _ (by norm_num)]
    norm_num
  have hs2 : relativeSpeed (⟨⟨105, 460⟩, ⟨5, -0.16⟩, 0, 0.8⟩ : Sphere)
      (⟨⟨125, 460⟩, ⟨-5, -0.16⟩, 0, 0.8⟩ : Sphere) = -10 := by
    simp only [relativeSpeed, normal, relativeVelocity, relativePosition, hd2,
      Vector2.sub_x, Vector2.sub_y, Vector2.smul_x, Vector2.smul_y]
    norm_num
  have s2 : handleSphereCollision (⟨⟨105, 460⟩, ⟨5, -0.16⟩, 0, 0.8⟩ : Sphere)
      (⟨⟨125, 460⟩, ⟨-5, -0.16⟩, 0, 0.8⟩ : Sphere) =
      (⟨⟨95, 460⟩, ⟨-5, -0.16⟩, 0, 0.8⟩, ⟨⟨135, 460⟩, ⟨5, -0.16⟩, 0, 0.8⟩) := by
    rw [handleSphereCollision,
      if_pos (by rw [hd2]; norm_num [totalRadius, SPHERE_RADIUS]),
      if_pos (by rw [hs2]; norm_num)]
    simp only [applyCollisionResponse, impulse, hs2, penetration, hd2, normal,
      relativePosition, totalRadius, SPHERE_RADIUS, Vector2.sub_x,
      Vector2.sub_y, Vector2.smul_x, Vector2.smul_y]
    norm_num [Sphere.mk.injEq, Vector2.mk.injEq]
  rw [tickStaged_pair, tick_pair, i1, s1]
  simp only [i2, i3, i4, s2]
  simp only [ne_eq, List.cons.injEq, Sphere.mk.injEq, Vector2.mk.injEq]
  norm_num

end Simulation
